import Mathlib

/-!
Verification of the webndb db-api core: the volume ordering engine
(src/apps/db-api/app/api/volume/service.py and the volume/novel view
handlers) and the cursor pagination codec
(src/apps/db-api/app/api/pagination.py).

The database is modelled as explicit state: the SQL statements the
service functions issue (bulk UPDATE with range predicates, INSERT,
attribute mutation of the ORM-mapped volume_ordering row) are applied
to that state exactly as the statements describe.  Python integers are
Int, row ids are Nat, fallible paths return Except.
-/

namespace WebNDB

/-! ### Data model (src/apps/db-api/app/models.py)

A single parent novel is modelled: every ordering-engine statement in
volume/service.py filters on one novel_id, so the state of one novel is
closed under all the operations considered here.  VOLUME_ORDER_MAX comes
from app.const, which only its importers are shipped with; it is passed
as an explicit parameter to each operation that reads it. -/

/-- Row of the volume table: surrogate id and its 1-based order among
the volumes of the (fixed) novel. -/
structure Volume where
  volume_id : Nat
  volume_order : Int
deriving Repr, DecidableEq

/-- State of one novel: its volume rows, plus the fields of its
volume_ordering row (next_order starts at 1, ordering starts empty,
per the column defaults in models.py). -/
structure NovelState where
  volumes : List Volume
  next_order : Int
  ordering : List Nat
deriving Repr, DecidableEq

/-- Failures of the ordering operations: the Python assert statements in
volume/service.py, and the ClientException raised by the create_volume
view when the novel already has VOLUME_ORDER_MAX volumes. -/
inductive OrderingError where
  | assertionFailed
  | capacityExceeded
deriving Repr, DecidableEq

/-- Semantics of Python list.insert(i, x): a negative index counts from
the end and is clamped at 0, an index past the end appends. -/
def pythonInsert (xs : List Nat) (i : Int) (x : Nat) : List Nat :=
  let n : Int := xs.length
  let idx : Nat := (if i < 0 then max 0 (n + i) else min i n).toNat
  xs.take idx ++ [x] ++ xs.drop idx

/-! ### Ordering engine (src/apps/db-api/app/api/volume/service.py) -/

/-- get_next_order: reads next_order from the volume_ordering row of the
novel (the row is present in this single-novel state; absence of the row
is treated in the CatalogState model below). -/
def get_next_order (s : NovelState) : Int :=
  s.next_order

/-- update_subsequent_orders: one set-based UPDATE incrementing
volume_order by 1 for every volume with volume_order >= order_to_insert,
evaluated against the pre-update snapshot. -/
def update_subsequent_orders (s : NovelState) (order_to_insert : Int) : NovelState :=
  { s with
    volumes := s.volumes.map fun v =>
      if v.volume_order ≥ order_to_insert then
        { v with volume_order := v.volume_order + 1 }
      else v }

/-- insert_into_ordering: ordering.insert(insert_index - 1, volume_id)
on the Python list mapped from the array column, and next_order += 1. -/
def insert_into_ordering (s : NovelState) (insert_index : Int) (volume_id : Nat) :
    NovelState :=
  { s with
    ordering := pythonInsert s.ordering (insert_index - 1) volume_id
    next_order := s.next_order + 1 }

/-- insert_volume: clamp an absent or too-large requested order to
next_order, assert next_order <= VOLUME_ORDER_MAX + 1, shift the
existing rows up when taking an occupied slot, INSERT the new row (its
id is the RETURNING value, supplied here as new_volume_id), and record
it in the ordering row. -/
def insert_volume (VOLUME_ORDER_MAX : Int) (s : NovelState)
    (volume_order? : Option Int) (new_volume_id : Nat) :
    Except OrderingError NovelState :=
  let next_order := get_next_order s
  let volume_order :=
    match volume_order? with
    | none => next_order
    | some v => if v > next_order then next_order else v
  if next_order ≤ VOLUME_ORDER_MAX + 1 then
    let s1 := if volume_order < next_order
      then update_subsequent_orders s volume_order
      else s
    let s2 := { s1 with volumes := s1.volumes ++ [⟨new_volume_id, volume_order⟩] }
    .ok (insert_into_ordering s2 volume_order new_volume_id)
  else
    .error .assertionFailed

/-- update_volume: no-op when the order is unchanged (the Python
function returns None having issued no statement), clamp a requested
order above next_order down to next_order, assert
next_order <= VOLUME_ORDER_MAX + 1, issue one direction-dependent
set-based range shift, then set the moved row to the new order.  The
volume_ordering row is never touched. -/
def update_volume (VOLUME_ORDER_MAX : Int) (s : NovelState) (volume_id : Nat)
    (old_volume_order volume_order₀ : Int) :
    Except OrderingError NovelState :=
  if old_volume_order = volume_order₀ then .ok s
  else
    let next_order := get_next_order s
    let volume_order :=
      if volume_order₀ > next_order then next_order else volume_order₀
    if next_order ≤ VOLUME_ORDER_MAX + 1 then
      let shifted :=
        if volume_order < old_volume_order then
          s.volumes.map fun v =>
            if v.volume_order ≥ volume_order ∧ v.volume_order < old_volume_order then
              { v with volume_order := v.volume_order + 1 }
            else v
        else
          s.volumes.map fun v =>
            if v.volume_order > old_volume_order ∧ v.volume_order ≤ volume_order then
              { v with volume_order := v.volume_order - 1 }
            else v
      .ok { s with
        volumes := shifted.map fun v =>
          if v.volume_id = volume_id then { v with volume_order := volume_order }
          else v }
    else
      .error .assertionFailed

/-- create_volume view (src/apps/db-api/app/api/volume/views.py): after
the title and novel-existence validation (which touch no ordering
state), it reads next_order and raises a ClientException before calling
insert_volume when the novel already has the maximum amount of volumes.
On error no statement has been issued, so no state is returned. -/
def create_volume (VOLUME_ORDER_MAX : Int) (s : NovelState)
    (volume_order? : Option Int) (new_volume_id : Nat) :
    Except OrderingError NovelState :=
  if get_next_order s > VOLUME_ORDER_MAX then
    .error .capacityExceeded
  else
    insert_volume VOLUME_ORDER_MAX s volume_order? new_volume_id

/-! ### Novel creation and the volume_ordering row
(src/apps/db-api/app/api/novel/views.py, novel/service.py,
volume/service.py)

Here the state tracks which novels and which volume_ordering rows
exist, to express creation of the per-novel ordering record. -/

/-- Row of the volume_ordering table, with the column defaults of
models.py (next_order 1, ordering empty). -/
structure VolumeOrderingRow where
  novel_id : Nat
  next_order : Int
  ordering : List Nat
deriving Repr, DecidableEq

/-- Catalog-level state: the novel ids present in the novel table and
the rows of the volume_ordering table. -/
structure CatalogState where
  novels : List Nat
  volume_orderings : List VolumeOrderingRow
deriving Repr, DecidableEq

/-- insert_novel (novel/service.py): adds a novel row (its generated id
is supplied as new_novel_id) and flushes.  Nothing else is written. -/
def insert_novel (s : CatalogState) (new_novel_id : Nat) : CatalogState :=
  { s with novels := s.novels ++ [new_novel_id] }

/-- insert_initial_volume_ordering (volume/service.py): adds a
volume_ordering row for the novel with the column defaults.  Its
docstring says it should run after a novel is created, but no code in
the repository calls it. -/
def insert_initial_volume_ordering (s : CatalogState) (novel_id : Nat) : CatalogState :=
  { s with volume_orderings := s.volume_orderings ++ [⟨novel_id, 1, []⟩] }

/-- create_novel view (novel/views.py): validates titles, calls
insert_novel and upsert_novel_titles, builds the response and mirrors it
to the search index.  None of these touch the volume_ordering table. -/
def create_novel (s : CatalogState) (new_novel_id : Nat) : CatalogState :=
  insert_novel s new_novel_id

/-- get_next_order at catalog level (volume/service.py): the SELECT on
volume_ordering by novel_id; scalar() yields None when no row exists
(the subsequent attribute access then raises). -/
def get_next_order? (s : CatalogState) (novel_id : Nat) : Option Int :=
  (s.volume_orderings.find? fun r => r.novel_id == novel_id).map (·.next_order)

/-! ### MD5 (hashlib.md5 as used by pagination.py)

The digest is modelled bit for bit from RFC 1321 over byte lists, with
32-bit words as Nat reduced mod 2 to the 32, so that the fingerprint
comparison in the cursor codec is the real one.  The implementation was
checked against the reference test vectors (empty string, abc, and
multi-block messages). -/

namespace MD5

/-- Modulus for 32-bit words. -/
def M32 : Nat := 4294967296

/-- Per-round additive constants, floor(abs(sin(i + 1)) * 2 to the 32). -/
def K : List Nat :=
  [3614090360, 3905402710, 606105819, 3250441966, 4118548399, 1200080426,
   2821735955, 4249261313, 1770035416, 2336552879, 4294925233, 2304563134,
   1804603682, 4254626195, 2792965006, 1236535329, 4129170786, 3225465664,
   643717713, 3921069994, 3593408605, 38016083, 3634488961, 3889429448,
   568446438, 3275163606, 4107603335, 1163531501, 2850285829, 4243563512,
   1735328473, 2368359562, 4294588738, 2272392833, 1839030562, 4259657740,
   2763975236, 1272893353, 4139469664, 3200236656, 681279174, 3936430074,
   3572445317, 76029189, 3654602809, 3873151461, 530742520, 3299628645,
   4096336452, 1126891415, 2878612391, 4237533241, 1700485571, 2399980690,
   4293915773, 2240044497, 1873313359, 4264355552, 2734768916, 1309151649,
   4149444226, 3174756917, 718787259, 3951481745]

/-- Per-round left-rotation amounts. -/
def S : List Nat :=
  [7, 12, 17, 22, 7, 12, 17, 22, 7, 12, 17, 22, 7, 12, 17, 22,
   5, 9, 14, 20, 5, 9, 14, 20, 5, 9, 14, 20, 5, 9, 14, 20,
   4, 11, 16, 23, 4, 11, 16, 23, 4, 11, 16, 23, 4, 11, 16, 23,
   6, 10, 15, 21, 6, 10, 15, 21, 6, 10, 15, 21, 6, 10, 15, 21]

/-- Bitwise complement of a 32-bit word. -/
def compl32 (x : Nat) : Nat := x ^^^ (M32 - 1)

/-- Left rotation of a 32-bit word. -/
def rotl32 (x n : Nat) : Nat := ((x <<< n) % M32) ||| (x >>> (32 - n))

/-- The k low bytes of n, little endian. -/
def leBytes (n k : Nat) : List Nat :=
  (List.range k).map fun i => (n >>> (8 * i)) % 256

/-- Merkle-Damgard padding: a 0x80 byte, zeros to 56 mod 64, then the
bit length as a 64-bit little-endian quantity. -/
def padMessage (msg : List Nat) : List Nat :=
  let z := (56 + 64 - ((msg.length + 1) % 64)) % 64
  msg ++ [128] ++ List.replicate z 0 ++ leBytes ((8 * msg.length) % 2 ^ 64) 8

/-- Word j of a 64-byte block, little endian. -/
def leWord (block : List Nat) (j : Nat) : Nat :=
  block.getD (4 * j) 0 + 256 * block.getD (4 * j + 1) 0 +
    65536 * block.getD (4 * j + 2) 0 + 16777216 * block.getD (4 * j + 3) 0

/-- One of the 64 rounds of the compression function. -/
def md5Round (block : List Nat) (st : Nat × Nat × Nat × Nat) (i : Nat) :
    Nat × Nat × Nat × Nat :=
  let (a, b, c, d) := st
  let fg : Nat × Nat :=
    if i < 16 then ((b &&& c) ||| (compl32 b &&& d), i)
    else if i < 32 then ((d &&& b) ||| (compl32 d &&& c), (5 * i + 1) % 16)
    else if i < 48 then (b ^^^ c ^^^ d, (3 * i + 5) % 16)
    else (c ^^^ (b ||| compl32 d), (7 * i) % 16)
  let f := (fg.1 + a + K.getD i 0 + leWord block fg.2) % M32
  (d, (b + rotl32 f (S.getD i 0)) % M32, b, c)

/-- Compression of one 64-byte block into the running state. -/
def processBlock (st : Nat × Nat × Nat × Nat) (block : List Nat) :
    Nat × Nat × Nat × Nat :=
  let (a, b, c, d) := (List.range 64).foldl (md5Round block) st
  ((st.1 + a) % M32, (st.2.1 + b) % M32, (st.2.2.1 + c) % M32, (st.2.2.2 + d) % M32)

/-- The 16 digest bytes of a byte-list message. -/
def md5Bytes (msg : List Nat) : List Nat :=
  let padded := padMessage msg
  let st := (List.range (padded.length / 64)).foldl
    (fun st i => processBlock st ((padded.drop (64 * i)).take 64))
    (1732584193, 4023233417, 2562383102, 271733878)
  leBytes st.1 4 ++ leBytes st.2.1 4 ++ leBytes st.2.2.1 4 ++ leBytes st.2.2.2 4

/-- Lowercase hex digit. -/
def hexChar (n : Nat) : Char :=
  if n < 10 then Char.ofNat (48 + n) else Char.ofNat (87 + n)

/-- hexdigest() of a digest byte list. -/
def hexdigest (bytes : List Nat) : String :=
  String.mk ((bytes.map fun b => [hexChar (b / 16), hexChar (b % 16)]).flatten)

/-- md5(msg).hexdigest() as a single function. -/
def md5hex (msg : List Nat) : String := hexdigest (md5Bytes msg)

end MD5

/-! ### Cursor pagination (src/apps/db-api/app/api/pagination.py) -/

/-- UTF-8 bytes of a string; for the ASCII strings involved here the
code points are the bytes. -/
def strBytes (s : String) : List Nat := s.data.map Char.toNat

/-- An ASCII apostrophe, built by code point so the character does not
appear literally in this file. -/
def squote : Char := Char.ofNat 39

/-- Python str([a, b]) for two strings containing no quote or escape
characters: each element is rendered in single quotes. -/
def pyStrListPair (a b : String) : String :=
  "[" ++ String.mk [squote] ++ a ++ String.mk [squote] ++ ", " ++
    String.mk [squote] ++ b ++ String.mk [squote] ++ "]"

/-- The detail string of the ClientException raised for bad tokens. -/
def INVALID_PAGE_TOKEN_MESSAGE : String := "Invalid page token"

/-- The decrypted page token payload: a fingerprint of the issuing
request plus a sqlakeyset bookmark (the tokens the codec creates always
carry a string bookmark). -/
structure PageToken where
  request_hash : String
  bookmark : String
deriving Repr, DecidableEq

/-- A page_token string as the codec sees it: the literal string last; a
well-formed Fernet ciphertext of a PageToken, with a flag saying whether
its age exceeds PAGE_TOKEN_TTL at the moment of decryption (Fernet
authenticates, so a ciphertext decrypts to exactly the payload that was
encrypted); or anything else, which Fernet rejects. -/
inductive PageTokenString where
  | lastLiteral
  | fernet (tok : PageToken) (expired : Bool)
  | malformed
deriving Repr, DecidableEq

/-- The query-request fields the cursor codec reads, following the
QueryRequest schema (api/schemas.py) together with the page_token and
max_page_size attributes the pagination and web_novel modules access
(their schema variant is not part of this snapshot). -/
structure QueryRequest where
  q : String
  offset : Nat
  max_page_size : Nat
  filter : String
  sort : List String
  page_token : Option PageTokenString
deriving Repr, DecidableEq

/-- Result of process_page_token: None (first page), the (None, True)
last-page sentinel, or a sqlakeyset bookmark string. -/
inductive BookmarkValue where
  | firstPage
  | lastPage
  | bookmark (s : String)
deriving Repr, DecidableEq

/-- hash_request_contents: md5 hex digest of str([request.filter, path]). -/
def hash_request_contents (request : QueryRequest) (path : String) : String :=
  MD5.md5hex (strBytes (pyStrListPair request.filter path))

/-- process_page_token: first-page and last-page sentinels, then Fernet
decryption honoring the TTL, then the fingerprint comparison; every
failure raises ClientException with the invalid-token detail. -/
def process_page_token (request : QueryRequest) (path : String) :
    Except String BookmarkValue :=
  match request.page_token with
  | none => .ok .firstPage
  | some .lastLiteral => .ok .lastPage
  | some (.fernet tok expired) =>
      if expired then .error INVALID_PAGE_TOKEN_MESSAGE
      else if hash_request_contents request path ≠ tok.request_hash then
        .error INVALID_PAGE_TOKEN_MESSAGE
      else .ok (.bookmark tok.bookmark)
  | some .malformed => .error INVALID_PAGE_TOKEN_MESSAGE

/-- Name for the token-creation helper, kept close to the Python
identifier: encrypt the serialized pair of the request fingerprint and
the bookmark.  A freshly created token decrypted within the TTL carries
expired = false. -/
def create_page_token (request : QueryRequest) (path : String) (bookmark : String) :
    PageTokenString :=
  .fernet ⟨hash_request_contents request path, bookmark⟩ false

/-! ## Theorems -/

/-- C1: the claimed invariant (the rank multiset of a parent is always
exactly 1..count) is broken by the code.  With volumes 10@1, 20@2, 30@3
(next_order 4) and VOLUME_ORDER_MAX 100, moving volume 30 from order 3
to requested order 5 clamps 5 down to next_order = 4 and succeeds,
leaving ranks 1, 2, 4: a gap at 3, so the ranks are not a permutation
of 1, 2, 3 as the claim requires after a clamped move. -/
theorem update_volume_clamped_move_breaks_density :
    update_volume 100 ⟨[⟨10, 1⟩, ⟨20, 2⟩, ⟨30, 3⟩], 4, [10, 20, 30]⟩ 30 3 5 =
      .ok ⟨[⟨10, 1⟩, ⟨20, 2⟩, ⟨30, 4⟩], 4, [10, 20, 30]⟩ ∧
    ¬ (([⟨10, 1⟩, ⟨20, 2⟩, ⟨30, 4⟩] : List Volume).map Volume.volume_order).Perm
        [1, 2, 3] :=
  ⟨rfl, by decide⟩

/-- C2 counterexample: moving volume 30 from order 3 to order 1 (with
volumes 10@1, 20@2, 30@3 and ordering array [10, 20, 30]) succeeds but
leaves the ordering array at [10, 20, 30], not the remove-then-reinsert
permutation [30, 10, 20] the claim requires. -/
theorem update_volume_does_not_permute_ordering :
    update_volume 3 ⟨[⟨10, 1⟩, ⟨20, 2⟩, ⟨30, 3⟩], 4, [10, 20, 30]⟩ 30 3 1 =
      .ok ⟨[⟨10, 2⟩, ⟨20, 3⟩, ⟨30, 1⟩], 4, [10, 20, 30]⟩ ∧
    ([10, 20, 30] : List Nat) ≠ [30, 10, 20] :=
  ⟨rfl, by decide⟩

/-- C2 (amended): a successful move leaves the OrderingRecord entirely
unchanged: next_rank is unchanged as claimed, but the ordering array is
also untouched (it is not updated to the new permutation). -/
theorem update_volume_preserves_ordering_record (M : Int) (s : NovelState)
    (vid : Nat) (oldOrd newOrd : Int) (s2 : NovelState)
    (h : update_volume M s vid oldOrd newOrd = .ok s2) :
    s2.ordering = s.ordering ∧ s2.next_order = s.next_order := by
  unfold update_volume get_next_order at h
  split at h
  · injection h with h2
    subst h2
    exact ⟨rfl, rfl⟩
  · dsimp only at h
    split at h
    · injection h with h2
      subst h2
      exact ⟨rfl, rfl⟩
    · cases h

/-- C2 witness: the frame theorem applied to the concrete move of
volume 10 from order 1 to order 3. -/
theorem update_volume_preserves_ordering_record_witness :
    (NovelState.mk [⟨10, 3⟩, ⟨20, 1⟩, ⟨30, 2⟩] 4 [10, 20, 30]).ordering =
        [10, 20, 30] ∧
    (NovelState.mk [⟨10, 3⟩, ⟨20, 1⟩, ⟨30, 2⟩] 4 [10, 20, 30]).next_order = 4 :=
  update_volume_preserves_ordering_record 3
    ⟨[⟨10, 1⟩, ⟨20, 2⟩, ⟨30, 3⟩], 4, [10, 20, 30]⟩ 10 1 3 _ rfl

/-- C3: the claim that an OrderingRecord is created atomically with the
parent is false on the code: create_novel only inserts the novel row
(and titles), insert_initial_volume_ordering is never called, so
get_next_order finds no volume_ordering row for the fresh novel; had
the uncalled helper run, the record would exist with next_order 1. -/
theorem create_novel_creates_no_ordering_record :
    get_next_order? (create_novel ⟨[], []⟩ 1) 1 = none ∧
    (create_novel ⟨[], []⟩ 1).novels = [1] ∧
    get_next_order? (insert_initial_volume_ordering (create_novel ⟨[], []⟩ 1) 1) 1 =
      some 1 := by
  decide

/-- C6: when the next unused order exceeds VOLUME_ORDER_MAX (the novel
already has the maximum amount of volumes), the create_volume handler
fails with the capacity ClientException before insert_volume runs, so
no row, shift or ordering change is issued. -/
theorem create_volume_capacity_exceeded (M : Int) (s : NovelState)
    (volume_order? : Option Int) (new_volume_id : Nat)
    (h : get_next_order s > M) :
    create_volume M s volume_order? new_volume_id = .error .capacityExceeded := by
  unfold create_volume
  rw [if_pos h]

/-- C6 witness: with VOLUME_ORDER_MAX 3 and a novel that already has
three volumes (next_order 4), creation fails. -/
theorem create_volume_capacity_exceeded_witness :
    get_next_order ⟨[⟨1, 1⟩, ⟨2, 2⟩, ⟨3, 3⟩], 4, [1, 2, 3]⟩ > 3 ∧
    create_volume 3 ⟨[⟨1, 1⟩, ⟨2, 2⟩, ⟨3, 3⟩], 4, [1, 2, 3]⟩ none 9 =
      .error .capacityExceeded :=
  ⟨by decide,
   create_volume_capacity_exceeded 3 ⟨[⟨1, 1⟩, ⟨2, 2⟩, ⟨3, 3⟩], 4, [1, 2, 3]⟩ none 9
     (by decide)⟩

/-- Evaluation of insert_volume when the requested order is strictly
below next_order: the assert passes, the set-based shift bumps exactly
the rows at or above the requested order, the new row is appended with
the requested order, and the ordering row records the insertion. -/
theorem insert_volume_eq_of_lt (M : Int) (s : NovelState) (d : Int) (nid : Nat)
    (hd : d < s.next_order) (hM : s.next_order ≤ M + 1) :
    insert_volume M s (some d) nid =
      .ok ⟨(s.volumes.map fun v =>
              if v.volume_order ≥ d then { v with volume_order := v.volume_order + 1 }
              else v) ++ [⟨nid, d⟩],
           s.next_order + 1,
           pythonInsert s.ordering (d - 1) nid⟩ := by
  unfold insert_volume get_next_order update_subsequent_orders insert_into_ordering
  dsimp only
  rw [if_neg (by omega : ¬ d > s.next_order), if_pos hM, if_pos hd]

/-- C4: inserting with an explicit desired order strictly below
next_order increments, in one set-based update over the pre-update
snapshot, exactly the existing volumes whose order is at least the
desired order, and inserts the new volume at the desired order. -/
theorem insert_volume_explicit_rank_shifts (M : Int) (s : NovelState) (d : Int)
    (nid : Nat) (hd : d < s.next_order) (hM : s.next_order ≤ M + 1) :
    insert_volume M s (some d) nid =
      .ok ⟨(s.volumes.map fun v =>
              if v.volume_order ≥ d then { v with volume_order := v.volume_order + 1 }
              else v) ++ [⟨nid, d⟩],
           s.next_order + 1,
           pythonInsert s.ordering (d - 1) nid⟩ :=
  insert_volume_eq_of_lt M s d nid hd hM

/-- C4 witness, scenario A of the spec: volumes A@1, B@2, C@3 (ids 1, 2,
3), insert at desired order 2 yields A@1, B@3, C@4 and the new volume at
order 2. -/
theorem insert_volume_explicit_rank_shifts_witness :
    (2 : Int) < 4 ∧ (4 : Int) ≤ 3 + 1 ∧
    insert_volume 3 ⟨[⟨1, 1⟩, ⟨2, 2⟩, ⟨3, 3⟩], 4, [1, 2, 3]⟩ (some 2) 4 =
      .ok ⟨[⟨1, 1⟩, ⟨2, 3⟩, ⟨3, 4⟩, ⟨4, 2⟩], 5, [1, 4, 2, 3]⟩ :=
  ⟨by decide, by decide, by
    rw [insert_volume_explicit_rank_shifts 3 ⟨[⟨1, 1⟩, ⟨2, 2⟩, ⟨3, 3⟩], 4, [1, 2, 3]⟩
      2 4 (by decide) (by decide)]
    rfl⟩

/-- C5: a move with distinct old and new orders, the new order not
above next_order: every other volume with order in [new, old) is
incremented when moving earlier, every other volume with order in
(old, new] is decremented when moving later, all other volumes keep
their order, and the moved volume (identified by id) ends at the new
order. -/
theorem update_volume_move_shift (M : Int) (s : NovelState) (vid : Nat)
    (oldOrd newOrd : Int) (hne : ¬ oldOrd = newOrd)
    (hcl : ¬ newOrd > s.next_order) (hM : s.next_order ≤ M + 1) :
    update_volume M s vid oldOrd newOrd =
      .ok { s with volumes := s.volumes.map fun v =>
        if v.volume_id = vid then { v with volume_order := newOrd }
        else if newOrd < oldOrd ∧ newOrd ≤ v.volume_order ∧ v.volume_order < oldOrd then
          { v with volume_order := v.volume_order + 1 }
        else if oldOrd < newOrd ∧ oldOrd < v.volume_order ∧ v.volume_order ≤ newOrd then
          { v with volume_order := v.volume_order - 1 }
        else v } := by
  unfold update_volume get_next_order
  rw [if_neg hne]
  dsimp only
  rw [if_neg hcl, if_pos hM]
  by_cases hdir : newOrd < oldOrd
  · have hopp : ¬ oldOrd < newOrd := by omega
    rw [if_pos hdir, List.map_map]
    refine congrArg Except.ok ?_
    refine congrArg (fun l => NovelState.mk l s.next_order s.ordering) ?_
    apply List.map_congr_left
    intro v _
    simp only [Function.comp_apply]
    by_cases hsh : v.volume_order ≥ newOrd ∧ v.volume_order < oldOrd
    · rw [if_pos hsh]
      by_cases hid : v.volume_id = vid
      · rw [if_pos hid, if_pos hid]
      · rw [if_neg hid, if_neg hid, if_pos ⟨hdir, hsh.1, hsh.2⟩]
    · rw [if_neg hsh]
      by_cases hid : v.volume_id = vid
      · rw [if_pos hid, if_pos hid]
      · rw [if_neg hid, if_neg hid,
          if_neg (fun hc => hsh ⟨hc.2.1, hc.2.2⟩),
          if_neg (fun hc => hopp hc.1)]
  · have hlt : oldOrd < newOrd := by omega
    rw [if_neg hdir, List.map_map]
    refine congrArg Except.ok ?_
    refine congrArg (fun l => NovelState.mk l s.next_order s.ordering) ?_
    apply List.map_congr_left
    intro v _
    simp only [Function.comp_apply]
    by_cases hsh : v.volume_order > oldOrd ∧ v.volume_order ≤ newOrd
    · rw [if_pos hsh]
      by_cases hid : v.volume_id = vid
      · rw [if_pos hid, if_pos hid]
      · rw [if_neg hid, if_neg hid, if_neg (fun hc => hdir hc.1),
          if_pos ⟨hlt, hsh.1, hsh.2⟩]
    · rw [if_neg hsh]
      by_cases hid : v.volume_id = vid
      · rw [if_pos hid, if_pos hid]
      · rw [if_neg hid, if_neg hid, if_neg (fun hc => hdir hc.1),
          if_neg (fun hc => hsh ⟨hc.2.1, hc.2.2⟩)]

/-- C5 witness, scenario B of the spec: ids 10, 20, 30 at orders 1, 2,
3; moving volume 30 from order 3 to order 1 gives 30@1, 10@2, 20@3. -/
theorem update_volume_move_shift_witness :
    ¬ (3 : Int) = 1 ∧ ¬ (1 : Int) > 4 ∧ (4 : Int) ≤ 3 + 1 ∧
    update_volume 3 ⟨[⟨10, 1⟩, ⟨20, 2⟩, ⟨30, 3⟩], 4, [10, 20, 30]⟩ 30 3 1 =
      .ok ⟨[⟨10, 2⟩, ⟨20, 3⟩, ⟨30, 1⟩], 4, [10, 20, 30]⟩ :=
  ⟨by decide, by decide, by decide, by
    rw [update_volume_move_shift 3 ⟨[⟨10, 1⟩, ⟨20, 2⟩, ⟨30, 3⟩], 4, [10, 20, 30]⟩
      30 3 1 (by decide) (by decide) (by decide)]
    rfl⟩

/-- C10: insert_volume applies no lower-bound clamp; with a
non-positive desired order on a novel whose volumes all have order at
least 1, every existing volume is shifted up by 1 and the new volume is
inserted with the non-positive order verbatim, so the resulting orders
are not the dense range 1..count. -/
theorem insert_volume_no_lower_clamp (M : Int) (s : NovelState) (d : Int)
    (nid : Nat) (hd : d ≤ 0) (hpos : ∀ v ∈ s.volumes, 1 ≤ v.volume_order)
    (hnext : 1 ≤ s.next_order) (hM : s.next_order ≤ M + 1) :
    insert_volume M s (some d) nid =
      .ok ⟨(s.volumes.map fun v => { v with volume_order := v.volume_order + 1 })
            ++ [⟨nid, d⟩],
           s.next_order + 1, pythonInsert s.ordering (d - 1) nid⟩ ∧
    ¬ ((((s.volumes.map fun v => { v with volume_order := v.volume_order + 1 })
            ++ [⟨nid, d⟩] : List Volume)).map Volume.volume_order).Perm
        ((List.range (s.volumes.length + 1)).map fun i => Int.ofNat i + 1) := by
  constructor
  · rw [insert_volume_eq_of_lt M s d nid (by omega) hM]
    refine congrArg Except.ok ?_
    refine congrArg (fun l : List Volume => NovelState.mk (l ++ [Volume.mk nid d])
      (s.next_order + 1) (pythonInsert s.ordering (d - 1) nid)) ?_
    apply List.map_congr_left
    intro v hv
    rw [if_pos (by have := hpos v hv; omega)]
  · intro hperm
    have hmem : d ∈ (List.range (s.volumes.length + 1)).map fun i => Int.ofNat i + 1 := by
      refine hperm.mem_iff.mp ?_
      rw [List.map_append]
      exact List.mem_append_right _ (by simp)
    simp only [List.mem_map, List.mem_range] at hmem
    obtain ⟨i, _, hi⟩ := hmem
    simp only [Int.ofNat_eq_natCast] at hi
    omega

/-- C10 witness: a single volume at order 1 (next_order 2), insert with
desired order 0: the existing volume moves to order 2 and the new one
gets order 0, so the orders 2, 0 are not a permutation of 1, 2. -/
theorem insert_volume_no_lower_clamp_witness :
    (0 : Int) ≤ 0 ∧ (∀ v ∈ [Volume.mk 1 1], 1 ≤ v.volume_order) ∧
    (1 : Int) ≤ 2 ∧ (2 : Int) ≤ 3 + 1 ∧
    (insert_volume 3 ⟨[⟨1, 1⟩], 2, [1]⟩ (some 0) 7 =
        .ok ⟨[⟨1, 2⟩, ⟨7, 0⟩], 3, [7, 1]⟩ ∧
      ¬ (([⟨1, 2⟩, ⟨7, 0⟩] : List Volume).map Volume.volume_order).Perm [1, 2]) :=
  ⟨by decide, by decide, by decide, by decide, by
    have h := insert_volume_no_lower_clamp 3 ⟨[⟨1, 1⟩], 2, [1]⟩ 0 7 (by decide)
      (by decide) (by decide) (by decide)
    exact h⟩

/-- C8: the literal last token decodes to the last-page sentinel for
every request and path, bypassing decryption, TTL and fingerprint
checks, and never yields the invalid-token error. -/
theorem process_page_token_last_sentinel (r : QueryRequest) (path : String) :
    process_page_token { r with page_token := some .lastLiteral } path =
      .ok .lastPage :=
  rfl

/-- Decoding an unexpired ciphertext token whose stored fingerprint
matches the current request yields its bookmark. -/
theorem process_page_token_fernet (r : QueryRequest) (path : String)
    (tok : PageToken) (h : hash_request_contents r path = tok.request_hash) :
    process_page_token { r with page_token := some (.fernet tok false) } path =
      .ok (.bookmark tok.bookmark) := by
  have h2 : hash_request_contents { r with page_token := some (.fernet tok false) }
      path = tok.request_hash := h
  unfold process_page_token
  dsimp only
  rw [if_neg Bool.false_ne_true, if_neg (not_ne_iff.mpr h2)]

/-- Decoding an unexpired ciphertext token whose stored fingerprint
differs from the current request raises the invalid-token error. -/
theorem process_page_token_fernet_bad (r : QueryRequest) (path : String)
    (tok : PageToken) (h : hash_request_contents r path ≠ tok.request_hash) :
    process_page_token { r with page_token := some (.fernet tok false) } path =
      .error INVALID_PAGE_TOKEN_MESSAGE := by
  have h2 : hash_request_contents { r with page_token := some (.fernet tok false) }
      path ≠ tok.request_hash := h
  unfold process_page_token
  dsimp only
  rw [if_neg Bool.false_ne_true, if_pos h2]

/-- C7: a token created for filter x and path /volumes decodes back to
exactly its bookmark against the same filter and path, and fails with
the invalid-token error against filter y on the same path or against
path /novels with the same filter. -/
theorem page_token_roundtrip_fingerprint (B : String) (r1 r2 r3 : QueryRequest)
    (h1 : r1.filter = "x") (h2 : r2.filter = "y") (h3 : r3.filter = "x") :
    process_page_token
        { r1 with page_token := some (create_page_token r1 "/volumes" B) }
        "/volumes" = .ok (.bookmark B) ∧
    process_page_token
        { r2 with page_token := some (create_page_token r1 "/volumes" B) }
        "/volumes" = .error INVALID_PAGE_TOKEN_MESSAGE ∧
    process_page_token
        { r3 with page_token := some (create_page_token r1 "/volumes" B) }
        "/novels" = .error INVALID_PAGE_TOKEN_MESSAGE := by
  refine ⟨process_page_token_fernet r1 "/volumes" _ rfl, ?_, ?_⟩
  · apply process_page_token_fernet_bad
    unfold hash_request_contents
    rw [h1, h2]
    dsimp only
    decide
  · apply process_page_token_fernet_bad
    unfold hash_request_contents
    rw [h1, h3]
    dsimp only
    decide

/-- C7 witness: the round trip and both fingerprint mismatches at the
concrete requests with filters x and y and the bookmark string bmark. -/
theorem page_token_roundtrip_fingerprint_witness :
    (QueryRequest.mk "" 0 0 "x" [] none).filter = "x" ∧
    (QueryRequest.mk "q" 3 50 "y" [] none).filter = "y" ∧
    (QueryRequest.mk "" 0 0 "x" [] none).filter = "x" ∧
    (process_page_token
        { QueryRequest.mk "" 0 0 "x" [] none with
          page_token := some (create_page_token (QueryRequest.mk "" 0 0 "x" [] none)
            "/volumes" "bmark") } "/volumes" = .ok (.bookmark "bmark") ∧
      process_page_token
        { QueryRequest.mk "q" 3 50 "y" [] none with
          page_token := some (create_page_token (QueryRequest.mk "" 0 0 "x" [] none)
            "/volumes" "bmark") } "/volumes" = .error INVALID_PAGE_TOKEN_MESSAGE ∧
      process_page_token
        { QueryRequest.mk "" 0 0 "x" [] none with
          page_token := some (create_page_token (QueryRequest.mk "" 0 0 "x" [] none)
            "/volumes" "bmark") } "/novels" = .error INVALID_PAGE_TOKEN_MESSAGE) :=
  ⟨rfl, rfl, rfl,
   page_token_roundtrip_fingerprint "bmark" (QueryRequest.mk "" 0 0 "x" [] none)
     (QueryRequest.mk "q" 3 50 "y" [] none) (QueryRequest.mk "" 0 0 "x" [] none)
     rfl rfl rfl⟩

/-- C9: the request fingerprint depends on exactly the filter expression
and the endpoint path: two requests agreeing on those but differing in
sort order, free-text query term, offset or page size hash alike, and a
token issued under one decodes successfully against the other. -/
theorem fingerprint_ignores_sort_query_offset_size (r1 r2 : QueryRequest)
    (path B : String) (hf : r1.filter = r2.filter) :
    hash_request_contents r1 path = hash_request_contents r2 path ∧
    process_page_token { r2 with page_token := some (create_page_token r1 path B) }
      path = .ok (.bookmark B) := by
  have hh : hash_request_contents r1 path = hash_request_contents r2 path := by
    unfold hash_request_contents
    rw [hf]
  exact ⟨hh, process_page_token_fernet r2 path _ hh.symm⟩

/-- C9 witness: two requests with the same filter but different sort
order, query term, offset and page size share the fingerprint, and the
token issued under the first decodes against the second. -/
theorem fingerprint_ignores_sort_query_offset_size_witness :
    (QueryRequest.mk "alpha" 0 10 "f" ["title:asc"] none).filter =
      (QueryRequest.mk "beta" 40 100 "f" ["title:desc"] none).filter ∧
    (hash_request_contents (QueryRequest.mk "alpha" 0 10 "f" ["title:asc"] none)
        "/web-novels" =
      hash_request_contents (QueryRequest.mk "beta" 40 100 "f" ["title:desc"] none)
        "/web-novels" ∧
      process_page_token
        { QueryRequest.mk "beta" 40 100 "f" ["title:desc"] none with
          page_token := some (create_page_token
            (QueryRequest.mk "alpha" 0 10 "f" ["title:asc"] none) "/web-novels" "bk") }
        "/web-novels" = .ok (.bookmark "bk")) :=
  ⟨rfl,
   fingerprint_ignores_sort_query_offset_size
     (QueryRequest.mk "alpha" 0 10 "f" ["title:asc"] none)
     (QueryRequest.mk "beta" 40 100 "f" ["title:desc"] none) "/web-novels" "bk" rfl⟩

end WebNDB
